import Mathlib

/-!
Shallow embedding of the command execution and caching pipeline of
`src/app.py` (class `CommandRunner`, class `App.process_queue`, class
`PasswordDialog`): the worker `CommandRunner._execute`, the disk cache it
reads and writes, and the job-queue chainer that sequences commands via
completion callbacks.

Modelling conventions:
- The on-disk cache is a total map from file paths to optional contents
  (`none` = file absent); full-file reads and writes only, as in the source.
- The external process facility is an oracle `proc : List String → ProcOutcome`
  giving, for an argument vector, either the captured output lines and exit
  code (`ran`), a `FileNotFoundError` at spawn (`notFound`), or an unexpected
  exception (`raised`).
- The secret broker (`PasswordDialog.get_input`) is a value
  `secret : Option String`: `none` when the user cancels, `some s` when the
  user confirms with entry text `s` (possibly empty, per `_ok_event`).
- Every UI-thread effect posted with `self.app.after` (status lines, console
  log, per-line sink, alerts, busy toggles, completion callback) and every
  process interaction (spawn, stdin write) is recorded as an `Event` in
  program order.
-/

namespace ALPM

/-- Python truthiness of whitespace: characters stripped by `str.strip()`. -/
def isPySpace (c : Char) : Bool :=
  c = ' ' || c = '\t' || c = '\n' || c = '\r' || c = '\x0b' || c = '\x0c'

/-- Python `str.strip()`: drop whitespace from both ends. -/
def pyStrip (s : String) : String :=
  ⟨((s.data.dropWhile isPySpace).reverse.dropWhile isPySpace).reverse⟩

/-- Python falsiness of the password value `password` at line 126
(`if not password:`): `None` or the empty string. -/
def pyFalsyOpt : Option String → Bool
  | none => true
  | some s => s.isEmpty

/-- Contiguous-substring search over character lists. -/
def listInfix (needle : List Char) : List Char → Bool
  | [] => needle.isEmpty
  | c :: rest => needle.isPrefixOf (c :: rest) || listInfix needle rest

/-- Python `needle in haystack` substring test (line 182). -/
def containsSub (needle hay : String) : Bool :=
  listInfix needle.data hay.data

/-- `Config.CACHE_DIR` of the source. -/
def CACHE_DIR : String := "~/.cache/apm_cache"

/-- `Config.SOURCE_FLATPAK` of the source. -/
def SOURCE_FLATPAK : String := "flatpak"

/-- `os.path.join` for the one directory/key join the runner performs. -/
def joinPath (dir key : String) : String := dir ++ "/" ++ key

/-- Outcome of the `subprocess.Popen` + read + wait block, as seen by
`_execute`'s `try`: a completed run with its output lines (each line keeps
its trailing newline, as `readline` yields them) and return code, a
`FileNotFoundError` at spawn, or an unexpected exception with its message. -/
inductive ProcOutcome
  | ran (lines : List String) (returncode : Int)
  | notFound
  | raised (msg : String)
deriving DecidableEq, Repr

/-- Whether the spawn succeeded and the run completed. -/
def ProcOutcome.isRan : ProcOutcome → Bool
  | .ran _ _ => true
  | _ => false

/-- Observable actions of one worker, in program order. -/
inductive Event
  | setBusy (b : Bool)
  | logConsole (s : String)
  | logCb (s : String)
  | status (s : String)
  | alert (title msg : String)
  | spawn (cmd : List String)
  | stdinWrite (s : String)
  | complete (transcript : String) (src : Option String)
  | dialogComplete
  | refresh
deriving DecidableEq, Repr

/-- The on-disk cache: path → file contents (`none` = absent). -/
def Cache : Type := String → Option String

/-- Lines 137–139: full-file read of a cache entry. -/
def cacheGet (cache : Cache) (path : String) : Option String := cache path

/-- Lines 188–191: full-file write of the transcript, guarded by
`output_str.strip()` being truthy (non-empty after stripping whitespace). -/
def cachePut (cache : Cache) (path : String) (transcript : String) : Cache :=
  if (pyStrip transcript).isEmpty then cache
  else fun q => if q = path then some transcript else cache q

/-- The parameters of `CommandRunner.run` / `_execute`.  `callback` and
`log_callback` record only presence; their invocations are events. -/
structure Request where
  command : List String
  callback : Bool
  log_callback : Bool
  source : Option String
  cache_key : Option String
  force_refresh : Bool
  requires_sudo : Bool
  set_global_busy : Bool
deriving DecidableEq, Repr

/-- Line 135: the argument vector actually spawned — `["sudo", "-S"]`-prefixed
when elevation is required. -/
def effCommand (req : Request) : List String :=
  if req.requires_sudo then "sudo" :: "-S" :: req.command else req.command

/-- Result of one `_execute` worker: its event trace, the final cache state,
and the arguments the completion callback was invoked with (`none` when the
callback was absent or never invoked). -/
structure ExecResult where
  events : List Event
  cache : Cache
  callbackValue : Option (String × Option String)

/-- Lines 127–133: the elevation-cancelled early return. -/
def cancelEvents (req : Request) : List Event :=
  let m := "Sudo command cancelled: No password provided."
  [Event.logConsole m]
  ++ (if req.log_callback then [Event.logCb (m ++ "\n")] else [])
  ++ (if req.set_global_busy then [Event.setBusy false] else [])
  ++ (if req.callback then [Event.complete "" req.source] else [])

/-- Line 137's condition: the cached transcript used when a cache path is
present, the file exists, and no force-refresh was requested. -/
def cacheLookup (cache : Cache) (cache_path : Option String)
    (force_refresh : Bool) : Option String :=
  match cache_path with
  | some p => if force_refresh then none else cacheGet cache p
  | none => none

/-- Lines 140–142: the cache-hit branch's events. -/
def hitEvents (req : Request) (s : String) : List Event :=
  (if req.log_callback then [Event.logCb s] else [])
  ++ [Event.status ("Ready (from cache)")]

/-- Lines 144–146: status and console lines announcing the run. -/
def preRunEvents (command : List String) : List Event :=
  let cmd_str := String.intercalate " " command
  [Event.status ("Running: " ++ cmd_str), Event.logConsole ("Running: " ++ cmd_str)]

/-- Lines 182–186: post-wait inspection of the return code and transcript. -/
def errorEvents (rc : Int) (out : String) : List Event :=
  if rc ≠ 0 then
    if containsSub "incorrect password" out then
      [Event.logConsole "Error: Incorrect password for sudo.",
       Event.alert "Authentication Failed" "The password you entered was incorrect."]
    else
      [Event.logConsole ("Process exited with code " ++ toString rc)]
  else []

/-- Lines 148–200: events of the `try`/`except` block, by outcome. -/
def runEvents (req : Request) (command : List String) (password : Option String) :
    ProcOutcome → List Event
  | .ran lines rc =>
      [Event.spawn command]
      ++ (match password with
          | some p => [Event.stdinWrite (p ++ "\n")]
          | none => [])
      ++ (if req.log_callback then lines.map Event.logCb else [])
      ++ errorEvents rc (String.join lines)
  | .notFound =>
      let msg := "Error: Command not found - " ++ command.headD "" ++ "."
      [Event.spawn command, Event.logConsole msg,
       Event.alert "Command Not Found" msg]
  | .raised e =>
      let msg := "An unexpected error occurred: " ++ e
      [Event.spawn command, Event.logConsole msg]
      ++ (if req.log_callback then [Event.logCb (msg ++ "\n")] else [])

/-- Line 179's `output_str` as produced by the `try` block: assigned only when
the spawn succeeded and the read loop and wait completed. -/
def outcomeOutput : ProcOutcome → Option String
  | .ran lines _ => some (String.join lines)
  | _ => none

/-- Lines 205–206: the completion callback fires only when present and
`output_str is not None`. -/
def tailCallback (req : Request) (out : Option String) :
    Option (String × Option String) :=
  if req.callback then out.map (fun o => (o, req.source)) else none

/-- Lines 205–209: the common tail of the worker. -/
def tailEvents (req : Request) (out : Option String) : List Event :=
  (match tailCallback req out with
   | some (t, s) => [Event.complete t s]
   | none => [])
  ++ (if req.set_global_busy then [Event.setBusy false] else [])

/-- `CommandRunner._execute` (lines 104–209): one worker's whole run, given
the secret the broker would return and the process oracle. -/
def execute (req : Request) (secret : Option String)
    (proc : List String → ProcOutcome) (cache : Cache) : ExecResult :=
  let busyOn : List Event := if req.set_global_busy then [Event.setBusy true] else []
  let cache_path : Option String := req.cache_key.map (joinPath CACHE_DIR)
  if req.requires_sudo && pyFalsyOpt secret then
    { events := busyOn ++ cancelEvents req
      cache := cache
      callbackValue := if req.callback then some ("", req.source) else none }
  else
    let password : Option String := if req.requires_sudo then secret else none
    let command : List String := effCommand req
    match cacheLookup cache cache_path req.force_refresh with
    | some s =>
        { events := busyOn ++ hitEvents req s ++ tailEvents req (some s)
          cache := cache
          callbackValue := tailCallback req (some s) }
    | none =>
        let outcome := proc command
        let out := outcomeOutput outcome
        { events := busyOn ++ preRunEvents command
              ++ runEvents req command password outcome
              ++ [Event.status "Ready"] ++ tailEvents req out
          cache :=
            match cache_path, out with
            | some p, some o => cachePut cache p o
            | _, _ => cache
          callbackValue := tailCallback req out }

/-- Result classification of one executed request, read off the branch
structure of lines 182–199: marker + non-zero exit ⇒ `AuthFailure`;
`FileNotFoundError` ⇒ `NotFound`; unexpected exception ⇒ `IOErr`;
other non-zero exit ⇒ `NonZeroExit`; otherwise `Success`. -/
inductive Classification
  | Success | NonZeroExit | AuthFailure | NotFound | IOErr
deriving DecidableEq, Repr

/-- Classify a process outcome as the source's branches do. -/
def classify : ProcOutcome → Classification
  | .ran lines rc =>
      let out := String.join lines
      if rc ≠ 0 then
        if containsSub "incorrect password" out then .AuthFailure
        else .NonZeroExit
      else .Success
  | .notFound => .NotFound
  | .raised _ => .IOErr

/-! ### The job queue chainer (`App.process_queue`, lines 1191–1230) -/

/-- One entry of `self.package_queue` (`App.add_to_queue`, line 1180). -/
structure QueueItem where
  action : String
  pkg_name : String
  source : String
deriving DecidableEq, Repr

/-- One batched job of `process_queue` (lines 1204–1207). -/
structure Job where
  cmd : List String
  requires_sudo : Bool
deriving DecidableEq, Repr

/-- Lines 1198–1207: group the copied queue into at most four batched jobs,
in the fixed order system installs, system removes, flatpak installs,
flatpak removes. -/
def buildJobs (q : List QueueItem) : List Job :=
  let installs := (q.filter fun p =>
    p.action == "install" && p.source != SOURCE_FLATPAK).map QueueItem.pkg_name
  let removes := (q.filter fun p =>
    p.action == "remove" && p.source != SOURCE_FLATPAK).map QueueItem.pkg_name
  let flatpak_installs := (q.filter fun p =>
    p.action == "install" && p.source == SOURCE_FLATPAK).map QueueItem.pkg_name
  let flatpak_removes := (q.filter fun p =>
    p.action == "remove" && p.source == SOURCE_FLATPAK).map QueueItem.pkg_name
  (if installs.isEmpty then [] else
    [{ cmd := ["yay", "-S", "--noconfirm"] ++ installs, requires_sudo := true }])
  ++ (if removes.isEmpty then [] else
    [{ cmd := ["pacman", "-Rns", "--noconfirm"] ++ removes, requires_sudo := true }])
  ++ (if flatpak_installs.isEmpty then [] else
    [{ cmd := ["flatpak", "install", "flathub", "-y", "--verbose"] ++ flatpak_installs,
       requires_sudo := false }])
  ++ (if flatpak_removes.isEmpty then [] else
    [{ cmd := ["flatpak", "uninstall", "-y", "--verbose"] ++ flatpak_removes,
       requires_sudo := false }])

/-- Lines 1221–1228: the request `run_next_job` issues for one job — callback
is `run_next_job` itself, the dialog log is the sink, `force_refresh=True`,
no cache key, no busy toggle. -/
def jobRequest (j : Job) : Request :=
  { command := j.cmd, callback := true, log_callback := true, source := none,
    cache_key := none, force_refresh := true, requires_sudo := j.requires_sudo,
    set_global_busy := false }

/-- Run one queued job through `CommandRunner._execute`. -/
def runJob (secret : Option String) (proc : List String → ProcOutcome)
    (cache : Cache) (j : Job) : ExecResult :=
  execute (jobRequest j) secret proc cache

/-- Lines 1213–1218: the trace emitted when `run_next_job` finds the job list
empty — final dialog log line, dialog completion, console line, one refresh. -/
def queueDoneEvents : List Event :=
  [Event.logCb "\n\nAll operations complete.\n", Event.dialogComplete,
   Event.logConsole "Package queue processing finished.", Event.refresh]

/-- `run_next_job`'s recursion (lines 1212–1230): run the front job; its
completion callback (when it fires) starts the next job.  `secrets n` is what
the password dialog would return for the `n`-th prompt of this chain. -/
def process_queue (secrets : Nat → Option String)
    (proc : List String → ProcOutcome) (cache : Cache) : List Job → List Event
  | [] => queueDoneEvents
  | j :: rest =>
      let r := runJob (secrets 0) proc cache j
      r.events ++
        (if r.callbackValue.isSome then
          process_queue (fun n => secrets (n + 1)) proc r.cache rest
        else [])

/-! ### Trace projections used by the statements -/

/-- The argument vector of a spawn event, if any. -/
def spawnPayload : Event → Option (List String)
  | .spawn c => some c
  | _ => none

/-- The text of a per-line-sink invocation, if any. -/
def logCbPayload : Event → Option String
  | .logCb s => some s
  | _ => none

/-- The text written to the process input stream, if any. -/
def stdinPayload : Event → Option String
  | .stdinWrite s => some s
  | _ => none

/-- Every event except writes to the process input stream. -/
def notStdin (e : Event) : Bool :=
  match e with
  | .stdinWrite _ => false
  | _ => true

/-- The arguments of a completion-callback invocation, if any. -/
def completePayload : Event → Option (String × Option String)
  | .complete t s => some (t, s)
  | _ => none

/-! ### Branch lemmas for `execute` -/

/-- When elevation is required and the broker's answer is falsy, `_execute`
takes the early-return branch of lines 126–133. -/
theorem execute_cancel (req : Request) (secret : Option String)
    (proc : List String → ProcOutcome) (cache : Cache)
    (h : (req.requires_sudo && pyFalsyOpt secret) = true) :
    execute req secret proc cache =
      { events := (if req.set_global_busy then [Event.setBusy true] else [])
          ++ cancelEvents req
        cache := cache
        callbackValue := if req.callback then some ("", req.source) else none } := by
  simp [execute, h]

/-- When elevation is not cancelled and the cache lookup hits, `_execute`
takes the branch of lines 137–142. -/
theorem execute_hit (req : Request) (secret : Option String)
    (proc : List String → ProcOutcome) (cache : Cache) (s : String)
    (h : (req.requires_sudo && pyFalsyOpt secret) = false)
    (hhit : cacheLookup cache (req.cache_key.map (joinPath CACHE_DIR))
      req.force_refresh = some s) :
    execute req secret proc cache =
      { events := (if req.set_global_busy then [Event.setBusy true] else [])
          ++ hitEvents req s ++ tailEvents req (some s)
        cache := cache
        callbackValue := tailCallback req (some s) } := by
  simp [execute, h, hhit]

/-- When elevation is not cancelled and the cache lookup misses, `_execute`
runs the process (lines 144–209). -/
theorem execute_run (req : Request) (secret : Option String)
    (proc : List String → ProcOutcome) (cache : Cache)
    (h : (req.requires_sudo && pyFalsyOpt secret) = false)
    (hmiss : cacheLookup cache (req.cache_key.map (joinPath CACHE_DIR))
      req.force_refresh = none) :
    execute req secret proc cache =
      { events := (if req.set_global_busy then [Event.setBusy true] else [])
          ++ preRunEvents (effCommand req)
          ++ runEvents req (effCommand req)
              (if req.requires_sudo then secret else none) (proc (effCommand req))
          ++ [Event.status "Ready"]
          ++ tailEvents req (outcomeOutput (proc (effCommand req)))
        cache :=
          match req.cache_key.map (joinPath CACHE_DIR),
              outcomeOutput (proc (effCommand req)) with
          | some p, some o => cachePut cache p o
          | _, _ => cache
        callbackValue := tailCallback req (outcomeOutput (proc (effCommand req))) } := by
  simp [execute, h, hmiss]

/-- The cancel branch spawns nothing. -/
theorem spawnPayload_cancel (req : Request) (b : Bool) :
    (((if b then [Event.setBusy true] else []) ++ cancelEvents req).filterMap
      spawnPayload) = [] := by
  obtain ⟨cmd, cb, lcb, src, key, ff, rs, busy⟩ := req
  cases b <;> cases cb <;> cases lcb <;> cases busy <;> rfl

/-- The cache-hit branch spawns nothing. -/
theorem spawnPayload_hit (req : Request) (b : Bool) (s : String) :
    (((if b then [Event.setBusy true] else []) ++ hitEvents req s
      ++ tailEvents req (some s)).filterMap spawnPayload) = [] := by
  obtain ⟨cmd, cb, lcb, src, key, ff, rs, busy⟩ := req
  cases b <;> cases cb <;> cases lcb <;> cases busy <;> rfl

/-- A forced refresh makes the cache lookup miss whatever the cache holds. -/
theorem cacheLookup_force (cache : Cache) (cp : Option String) :
    cacheLookup cache cp true = none := by
  cases cp <;> simp [cacheLookup]

/-- Per-line sink events carry no spawn payload. -/
theorem spawnPayload_logCb_map (lines : List String) :
    (lines.map Event.logCb).filterMap spawnPayload = [] := by
  induction lines with
  | nil => rfl
  | cons a l ih => simp [List.filterMap_cons, spawnPayload, ih]

/-- The post-wait inspection events carry no spawn payload. -/
theorem spawnPayload_errorEvents (rc : Int) (out : String) :
    (errorEvents rc out).filterMap spawnPayload = [] := by
  unfold errorEvents
  split
  · split <;> rfl
  · rfl

/-- The run branch spawns exactly once, with the effective argument vector. -/
theorem spawnPayload_run (req : Request) (b : Bool) (c : List String)
    (pw : Option String) (o : ProcOutcome) :
    (((if b then [Event.setBusy true] else []) ++ preRunEvents c
      ++ runEvents req c pw o ++ [Event.status "Ready"]
      ++ tailEvents req (outcomeOutput o)).filterMap spawnPayload) = [c] := by
  obtain ⟨cmd, cb, lcb, src, key, ff, rs, busy⟩ := req
  cases o with
  | ran lines rc =>
      cases b <;> cases cb <;> cases lcb <;> cases busy <;> cases pw <;>
        simp [preRunEvents, runEvents, tailEvents, tailCallback, outcomeOutput,
          List.filterMap_append, List.filterMap_cons, spawnPayload,
          spawnPayload_logCb_map, spawnPayload_errorEvents]
  | notFound =>
      cases b <;> cases cb <;> cases lcb <;> cases busy <;>
        simp [preRunEvents, runEvents, tailEvents, tailCallback, outcomeOutput,
          List.filterMap_append, List.filterMap_cons, spawnPayload]
  | raised e =>
      cases b <;> cases cb <;> cases lcb <;> cases busy <;>
        simp [preRunEvents, runEvents, tailEvents, tailCallback, outcomeOutput,
          List.filterMap_append, List.filterMap_cons, spawnPayload]

/-- Sink events carry no stdin payload. -/
theorem stdinPayload_logCb_map (lines : List String) :
    (lines.map Event.logCb).filterMap stdinPayload = [] := by
  induction lines with
  | nil => rfl
  | cons a l ih => simp [List.filterMap_cons, stdinPayload, ih]

/-- The post-wait inspection events carry no stdin payload. -/
theorem stdinPayload_errorEvents (rc : Int) (out : String) :
    (errorEvents rc out).filterMap stdinPayload = [] := by
  unfold errorEvents
  split
  · split <;> rfl
  · rfl

/-- The cancel branch writes nothing to any input stream. -/
theorem stdinPayload_cancel (req : Request) (b : Bool) :
    (((if b then [Event.setBusy true] else []) ++ cancelEvents req).filterMap
      stdinPayload) = [] := by
  obtain ⟨cmd, cb, lcb, src, key, ff, rs, busy⟩ := req
  cases b <;> cases cb <;> cases lcb <;> cases busy <;> rfl

/-- The cache-hit branch writes nothing to any input stream. -/
theorem stdinPayload_hit (req : Request) (b : Bool) (s : String) :
    (((if b then [Event.setBusy true] else []) ++ hitEvents req s
      ++ tailEvents req (some s)).filterMap stdinPayload) = [] := by
  obtain ⟨cmd, cb, lcb, src, key, ff, rs, busy⟩ := req
  cases b <;> cases cb <;> cases lcb <;> cases busy <;> rfl

/-- The run branch writes to the input stream exactly the password followed by
a newline, and only when a password is present and the spawn succeeded. -/
theorem stdinPayload_run (req : Request) (b : Bool) (c : List String)
    (pw : Option String) (o : ProcOutcome) :
    (((if b then [Event.setBusy true] else []) ++ preRunEvents c
      ++ runEvents req c pw o ++ [Event.status "Ready"]
      ++ tailEvents req (outcomeOutput o)).filterMap stdinPayload)
      = (match o, pw with
         | .ran _ _, some p => [p ++ "\n"]
         | _, _ => []) := by
  obtain ⟨cmd, cb, lcb, src, key, ff, rs, busy⟩ := req
  cases o <;> cases pw <;> cases b <;> cases cb <;> cases lcb <;> cases busy <;>
    simp [preRunEvents, runEvents, tailEvents, tailCallback, outcomeOutput,
      List.filterMap_append, List.filterMap_cons, stdinPayload,
      stdinPayload_logCb_map, stdinPayload_errorEvents]

/-- Everything `_execute` ever writes to an input stream is the broker's
password followed by a newline. -/
theorem stdinPayload_execute (req : Request) (p : String)
    (proc : List String → ProcOutcome) (cache : Cache) :
    ∀ s ∈ (execute req (some p) proc cache).events.filterMap stdinPayload,
      s = p ++ "\n" := by
  rcases Bool.eq_false_or_eq_true (req.requires_sudo && pyFalsyOpt (some p)) with hb | hb
  · rw [execute_cancel req (some p) proc cache hb]
    intro s hs
    rw [stdinPayload_cancel req _] at hs
    cases hs
  · cases hl : cacheLookup cache (req.cache_key.map (joinPath CACHE_DIR))
        req.force_refresh with
    | some s =>
        rw [execute_hit req (some p) proc cache s hb hl]
        intro x hx
        rw [stdinPayload_hit req _ s] at hx
        cases hx
    | none =>
        rw [execute_run req (some p) proc cache hb hl]
        intro x hx
        rw [stdinPayload_run req _ _ _ _] at hx
        cases ho : proc (effCommand req) with
        | ran lines rc =>
            rw [ho] at hx
            rcases hr : (if req.requires_sudo then some p else none) with _ | q
            · rw [hr] at hx; cases hx
            · rw [hr] at hx
              have hq : q = p := by
                rcases Bool.eq_false_or_eq_true req.requires_sudo with hrs | hrs <;>
                  rw [hrs] at hr
                · exact (Option.some.inj hr).symm
                · cases hr
              simp at hx
              rw [hx, hq]
        | notFound => rw [ho] at hx; cases hx
        | raised e => rw [ho] at hx; cases hx

/-- Erasing input-stream writes makes the run branch's events independent of
the password. -/
theorem filter_notStdin_runEvents (req : Request) (c : List String)
    (pw1 pw2 : Option String) (o : ProcOutcome) :
    (runEvents req c pw1 o).filter notStdin
      = (runEvents req c pw2 o).filter notStdin := by
  cases o <;> cases pw1 <;> cases pw2 <;>
    simp [runEvents, List.filter_append, notStdin]

/-! ### Theorems for the claims -/

/-- C8: for every cache key `K` and transcript `T` non-empty after trimming,
`put(K, T)` followed by `get(K)` returns exactly `T`. -/
theorem cache_put_get_roundtrip (cache : Cache) (K T : String)
    (h : (pyStrip T).isEmpty = false) :
    cacheGet (cachePut cache (joinPath CACHE_DIR K) T) (joinPath CACHE_DIR K)
      = some T := by
  simp [cacheGet, cachePut, h]

/-- Witness for `cache_put_get_roundtrip` at a concrete key and transcript. -/
theorem cache_put_get_roundtrip_witness :
    (pyStrip "pacman 6.1.0\n").isEmpty = false ∧
    cacheGet (cachePut (fun _ => none) (joinPath CACHE_DIR "installed.cache")
        "pacman 6.1.0\n") (joinPath CACHE_DIR "installed.cache")
      = some "pacman 6.1.0\n" :=
  ⟨by decide,
   cache_put_get_roundtrip (fun _ => none) "installed.cache" "pacman 6.1.0\n" (by decide)⟩

/-- C2: contrary to the claim, a run that exits non-zero (classified
`NonZeroExit`) but produces a non-empty transcript IS written to the cache —
the guard on lines 188–189 checks only `output_str.strip()`, never the return
code, while the comment on line 188 says "Cache the result if successful". -/
theorem failed_run_is_cached :
    classify (ProcOutcome.ran ["error: package not found\n"] 1)
        = Classification.NonZeroExit ∧
    (execute
        { command := ["pacman", "-Si", "nosuchpkg"], callback := true,
          log_callback := false, source := none,
          cache_key := some "info_nosuchpkg.cache", force_refresh := false,
          requires_sudo := false, set_global_busy := true }
        none (fun _ => ProcOutcome.ran ["error: package not found\n"] 1)
        (fun _ => none)).cache (joinPath CACHE_DIR "info_nosuchpkg.cache")
      = some "error: package not found\n" := by
  constructor
  · decide
  · decide

/-- C4: when elevation is required and the broker returns `none`, no process
is spawned, nothing is written to any input stream, and the completion
callback (when present) still receives the empty transcript and the request's
source tag. -/
theorem cancelled_elevation_no_spawn (req : Request)
    (proc : List String → ProcOutcome) (cache : Cache)
    (hs : req.requires_sudo = true) :
    ((execute req none proc cache).events.filterMap spawnPayload = []) ∧
    ((execute req none proc cache).events.filterMap stdinPayload = []) ∧
    (execute req none proc cache).callbackValue =
      (if req.callback then some ("", req.source) else none) := by
  have h : (req.requires_sudo && pyFalsyOpt none) = true := by rw [hs]; decide
  rw [execute_cancel req none proc cache h]
  refine ⟨spawnPayload_cancel req _, ?_, rfl⟩
  obtain ⟨cmd, cb, lcb, src, key, ff, rs, busy⟩ := req
  cases cb <;> cases lcb <;> cases busy <;> rfl

/-- Witness for `cancelled_elevation_no_spawn` at a concrete request. -/
theorem cancelled_elevation_no_spawn_witness :
    (Request.requires_sudo
      { command := ["pacman", "-S", "vim"], callback := true, log_callback := true,
        source := some "queue", cache_key := none, force_refresh := true,
        requires_sudo := true, set_global_busy := false } = true) ∧
    (((execute
        { command := ["pacman", "-S", "vim"], callback := true, log_callback := true,
          source := some "queue", cache_key := none, force_refresh := true,
          requires_sudo := true, set_global_busy := false }
        none (fun _ => ProcOutcome.ran ["x\n"] 0)
        (fun _ => none)).events.filterMap spawnPayload = []) ∧
     ((execute
        { command := ["pacman", "-S", "vim"], callback := true, log_callback := true,
          source := some "queue", cache_key := none, force_refresh := true,
          requires_sudo := true, set_global_busy := false }
        none (fun _ => ProcOutcome.ran ["x\n"] 0)
        (fun _ => none)).events.filterMap stdinPayload = []) ∧
     (execute
        { command := ["pacman", "-S", "vim"], callback := true, log_callback := true,
          source := some "queue", cache_key := none, force_refresh := true,
          requires_sudo := true, set_global_busy := false }
        none (fun _ => ProcOutcome.ran ["x\n"] 0)
        (fun _ => none)).callbackValue =
       some ("", some "queue")) := by
  refine ⟨rfl, ?_⟩
  have h := cancelled_elevation_no_spawn
    { command := ["pacman", "-S", "vim"], callback := true, log_callback := true,
      source := some "queue", cache_key := none, force_refresh := true,
      requires_sudo := true, set_global_busy := false }
    (fun _ => ProcOutcome.ran ["x\n"] 0) (fun _ => none) rfl
  exact ⟨h.1, h.2.1, by simpa using h.2.2⟩

/-- C10: a broker answer of `some ""` (the dialog confirmed with no text)
behaves exactly like `none`: same trace, same cache, same callback — so no
process is spawned and the callback gets the empty transcript. -/
theorem empty_secret_is_cancellation (req : Request)
    (proc : List String → ProcOutcome) (cache : Cache)
    (hs : req.requires_sudo = true) :
    execute req (some "") proc cache = execute req none proc cache ∧
    ((execute req (some "") proc cache).events.filterMap spawnPayload = []) ∧
    (execute req (some "") proc cache).callbackValue =
      (if req.callback then some ("", req.source) else none) := by
  have h : (req.requires_sudo && pyFalsyOpt (some "")) = true := by rw [hs]; decide
  have h' : (req.requires_sudo && pyFalsyOpt none) = true := by rw [hs]; decide
  rw [execute_cancel req (some "") proc cache h, execute_cancel req none proc cache h']
  exact ⟨rfl, spawnPayload_cancel req _, rfl⟩

/-- Witness for `empty_secret_is_cancellation` at a concrete request. -/
theorem empty_secret_is_cancellation_witness :
    (Request.requires_sudo
      { command := ["flatpak", "install", "x"], callback := true, log_callback := false,
        source := none, cache_key := none, force_refresh := false,
        requires_sudo := true, set_global_busy := true } = true) ∧
    (execute
        { command := ["flatpak", "install", "x"], callback := true, log_callback := false,
          source := none, cache_key := none, force_refresh := false,
          requires_sudo := true, set_global_busy := true }
        (some "") (fun _ => ProcOutcome.ran [] 0) (fun _ => none) =
      execute
        { command := ["flatpak", "install", "x"], callback := true, log_callback := false,
          source := none, cache_key := none, force_refresh := false,
          requires_sudo := true, set_global_busy := true }
        none (fun _ => ProcOutcome.ran [] 0) (fun _ => none)) ∧
    ((execute
        { command := ["flatpak", "install", "x"], callback := true, log_callback := false,
          source := none, cache_key := none, force_refresh := false,
          requires_sudo := true, set_global_busy := true }
        (some "") (fun _ => ProcOutcome.ran [] 0)
        (fun _ => none)).events.filterMap spawnPayload = []) ∧
    (execute
        { command := ["flatpak", "install", "x"], callback := true, log_callback := false,
          source := none, cache_key := none, force_refresh := false,
          requires_sudo := true, set_global_busy := true }
        (some "") (fun _ => ProcOutcome.ran [] 0)
        (fun _ => none)).callbackValue = some ("", none) := by
  refine ⟨rfl, ?_⟩
  have h := empty_secret_is_cancellation
    { command := ["flatpak", "install", "x"], callback := true, log_callback := false,
      source := none, cache_key := none, force_refresh := false,
      requires_sudo := true, set_global_busy := true }
    (fun _ => ProcOutcome.ran [] 0) (fun _ => none) rfl
  exact ⟨h.1, h.2.1, h.2.2⟩

/-- C6 counterexample: with `force_refresh=false`, a present cache entry, but
`requires_sudo=True` and a cancelled password prompt, the completion callback
receives the empty transcript, not the cached one — the elevation check on
lines 112–135 precedes the cache check, so the claim fails as stated. -/
theorem cache_hit_cancelled_elevation_cex :
    (execute
        { command := ["pacman", "-Qi", "vim"], callback := true, log_callback := true,
          source := none, cache_key := some "info_vim.cache", force_refresh := false,
          requires_sudo := true, set_global_busy := true }
        none (fun _ => ProcOutcome.ran ["fresh\n"] 0)
        (fun p => if p = joinPath CACHE_DIR "info_vim.cache" then
          some "cached info\n" else none)).callbackValue
      ≠ some ("cached info\n", none) := by decide

/-- C6 amended: for a request with a cache key, `force_refresh=false`, and a
present cache entry, provided elevation is not cancelled (the request needs no
elevation, or the broker returns a non-empty secret), no process is spawned,
the per-line sink (when supplied) is invoked exactly once with the full cached
text, and the completion callback (when supplied) fires with the cached
transcript. -/
theorem cache_hit_skips_execution (req : Request) (secret : Option String)
    (proc : List String → ProcOutcome) (cache : Cache) (k s : String)
    (hk : req.cache_key = some k)
    (hff : req.force_refresh = false)
    (hhit : cacheGet cache (joinPath CACHE_DIR k) = some s)
    (hnc : (req.requires_sudo && pyFalsyOpt secret) = false) :
    ((execute req secret proc cache).events.filterMap spawnPayload = []) ∧
    ((execute req secret proc cache).events.filterMap logCbPayload =
      (if req.log_callback then [s] else [])) ∧
    (execute req secret proc cache).callbackValue =
      (if req.callback then some (s, req.source) else none) := by
  have hl : cacheLookup cache (req.cache_key.map (joinPath CACHE_DIR))
      req.force_refresh = some s := by
    simp [cacheLookup, hk, hff, hhit]
  rw [execute_hit req secret proc cache s hnc hl]
  refine ⟨spawnPayload_hit req _ s, ?_, by simp [tailCallback]⟩
  obtain ⟨cmd, cb, lcb, src, key, ff, rs, busy⟩ := req
  cases cb <;> cases lcb <;> cases busy <;> rfl

/-- Witness for `cache_hit_skips_execution` at a concrete request. -/
theorem cache_hit_skips_execution_witness :
    (Request.cache_key
      { command := ["pacman", "-Q"], callback := true, log_callback := true,
        source := some "pacman", cache_key := some "installed.cache",
        force_refresh := false, requires_sudo := false, set_global_busy := true }
      = some "installed.cache") ∧
    (((execute
        { command := ["pacman", "-Q"], callback := true, log_callback := true,
          source := some "pacman", cache_key := some "installed.cache",
          force_refresh := false, requires_sudo := false, set_global_busy := true }
        none (fun _ => ProcOutcome.ran ["fresh\n"] 0)
        (fun p => if p = joinPath CACHE_DIR "installed.cache" then
          some "vim 9.1\n" else none)).events.filterMap spawnPayload = []) ∧
     ((execute
        { command := ["pacman", "-Q"], callback := true, log_callback := true,
          source := some "pacman", cache_key := some "installed.cache",
          force_refresh := false, requires_sudo := false, set_global_busy := true }
        none (fun _ => ProcOutcome.ran ["fresh\n"] 0)
        (fun p => if p = joinPath CACHE_DIR "installed.cache" then
          some "vim 9.1\n" else none)).events.filterMap logCbPayload = ["vim 9.1\n"]) ∧
     (execute
        { command := ["pacman", "-Q"], callback := true, log_callback := true,
          source := some "pacman", cache_key := some "installed.cache",
          force_refresh := false, requires_sudo := false, set_global_busy := true }
        none (fun _ => ProcOutcome.ran ["fresh\n"] 0)
        (fun p => if p = joinPath CACHE_DIR "installed.cache" then
          some "vim 9.1\n" else none)).callbackValue
       = some ("vim 9.1\n", some "pacman")) := by
  refine ⟨rfl, ?_⟩
  have h := cache_hit_skips_execution
    { command := ["pacman", "-Q"], callback := true, log_callback := true,
      source := some "pacman", cache_key := some "installed.cache",
      force_refresh := false, requires_sudo := false, set_global_busy := true }
    none (fun _ => ProcOutcome.ran ["fresh\n"] 0)
    (fun p => if p = joinPath CACHE_DIR "installed.cache" then
      some "vim 9.1\n" else none)
    "installed.cache" "vim 9.1\n" rfl rfl (by decide) (by decide)
  exact ⟨h.1, by simpa using h.2.1, by simpa using h.2.2⟩

/-- C7: with `force_refresh=true` the cache never short-circuits execution —
the worker's trace and callback are identical for any two cache states, and
whenever elevation is not cancelled, the process is spawned (exactly once,
with the effective argument vector) no matter what the cache holds. -/
theorem force_refresh_never_short_circuits (req : Request) (secret : Option String)
    (proc : List String → ProcOutcome) (c1 c2 : Cache)
    (hff : req.force_refresh = true) :
    ((execute req secret proc c1).events = (execute req secret proc c2).events) ∧
    ((execute req secret proc c1).callbackValue
      = (execute req secret proc c2).callbackValue) ∧
    ((req.requires_sudo && pyFalsyOpt secret) = false →
      (execute req secret proc c1).events.filterMap spawnPayload
        = [effCommand req]) := by
  rcases Bool.eq_false_or_eq_true (req.requires_sudo && pyFalsyOpt secret) with hb | hb
  · rw [execute_cancel req secret proc c1 hb, execute_cancel req secret proc c2 hb]
    exact ⟨rfl, rfl, fun h => by rw [h] at hb; cases hb⟩
  · have h1 : cacheLookup c1 (req.cache_key.map (joinPath CACHE_DIR))
        req.force_refresh = none := by rw [hff]; exact cacheLookup_force c1 _
    have h2 : cacheLookup c2 (req.cache_key.map (joinPath CACHE_DIR))
        req.force_refresh = none := by rw [hff]; exact cacheLookup_force c2 _
    rw [execute_run req secret proc c1 hb h1, execute_run req secret proc c2 hb h2]
    exact ⟨rfl, rfl, fun _ => spawnPayload_run req _ _ _ _⟩

/-- Witness for `force_refresh_never_short_circuits` at a concrete request and
two cache states (entry present vs. absent). -/
theorem force_refresh_never_short_circuits_witness :
    (Request.force_refresh
      { command := ["pacman", "-Q"], callback := true, log_callback := false,
        source := none, cache_key := some "installed.cache", force_refresh := true,
        requires_sudo := false, set_global_busy := true } = true) ∧
    (((execute
        { command := ["pacman", "-Q"], callback := true, log_callback := false,
          source := none, cache_key := some "installed.cache", force_refresh := true,
          requires_sudo := false, set_global_busy := true }
        none (fun _ => ProcOutcome.ran ["vim 9.1\n"] 0)
        (fun p => if p = joinPath CACHE_DIR "installed.cache" then
          some "stale\n" else none)).events =
      (execute
        { command := ["pacman", "-Q"], callback := true, log_callback := false,
          source := none, cache_key := some "installed.cache", force_refresh := true,
          requires_sudo := false, set_global_busy := true }
        none (fun _ => ProcOutcome.ran ["vim 9.1\n"] 0) (fun _ => none)).events) ∧
     ((execute
        { command := ["pacman", "-Q"], callback := true, log_callback := false,
          source := none, cache_key := some "installed.cache", force_refresh := true,
          requires_sudo := false, set_global_busy := true }
        none (fun _ => ProcOutcome.ran ["vim 9.1\n"] 0)
        (fun p => if p = joinPath CACHE_DIR "installed.cache" then
          some "stale\n" else none)).callbackValue =
      (execute
        { command := ["pacman", "-Q"], callback := true, log_callback := false,
          source := none, cache_key := some "installed.cache", force_refresh := true,
          requires_sudo := false, set_global_busy := true }
        none (fun _ => ProcOutcome.ran ["vim 9.1\n"] 0) (fun _ => none)).callbackValue) ∧
     ((execute
        { command := ["pacman", "-Q"], callback := true, log_callback := false,
          source := none, cache_key := some "installed.cache", force_refresh := true,
          requires_sudo := false, set_global_busy := true }
        none (fun _ => ProcOutcome.ran ["vim 9.1\n"] 0)
        (fun p => if p = joinPath CACHE_DIR "installed.cache" then
          some "stale\n" else none)).events.filterMap spawnPayload
       = [["pacman", "-Q"]])) := by
  refine ⟨rfl, ?_⟩
  have h := force_refresh_never_short_circuits
    { command := ["pacman", "-Q"], callback := true, log_callback := false,
      source := none, cache_key := some "installed.cache", force_refresh := true,
      requires_sudo := false, set_global_busy := true }
    none (fun _ => ProcOutcome.ran ["vim 9.1\n"] 0)
    (fun p => if p = joinPath CACHE_DIR "installed.cache" then
      some "stale\n" else none)
    (fun _ => none) rfl
  exact ⟨h.1, h.2.1, by simpa using h.2.2 (by decide)⟩

/-- C5: a run that exits non-zero with the literal marker
"incorrect password" anywhere in the transcript is classified `AuthFailure`
and surfaced as a blocking alert (lines 182–184), even when other error text
is present; a non-zero exit without the marker is classified `NonZeroExit`
and is only logged — no alert of any kind is emitted (lines 185–186). -/
theorem auth_failure_classification (req : Request) (secret : Option String)
    (proc : List String → ProcOutcome) (cache : Cache) (lines : List String) (rc : Int)
    (hnc : (req.requires_sudo && pyFalsyOpt secret) = false)
    (hmiss : cacheLookup cache (req.cache_key.map (joinPath CACHE_DIR))
      req.force_refresh = none)
    (hproc : proc (effCommand req) = ProcOutcome.ran lines rc)
    (hrc : rc ≠ 0) :
    (containsSub "incorrect password" (String.join lines) = true →
      classify (ProcOutcome.ran lines rc) = Classification.AuthFailure ∧
      Event.alert "Authentication Failed" "The password you entered was incorrect."
        ∈ (execute req secret proc cache).events) ∧
    (containsSub "incorrect password" (String.join lines) = false →
      classify (ProcOutcome.ran lines rc) = Classification.NonZeroExit ∧
      Event.logConsole ("Process exited with code " ++ toString rc)
        ∈ (execute req secret proc cache).events ∧
      ∀ t m, Event.alert t m ∉ (execute req secret proc cache).events) := by
  rw [execute_run req secret proc cache hnc hmiss, hproc]
  constructor
  · intro hmark
    refine ⟨by simp [classify, hrc, hmark], ?_⟩
    simp [runEvents, errorEvents, hrc, hmark]
  · intro hmark
    refine ⟨by simp [classify, hrc, hmark], ?_, ?_⟩
    · simp [runEvents, errorEvents, hrc, hmark]
    · intro t m hmem
      obtain ⟨cmd, cb, lcb, src, key, ff, rs, busy⟩ := req
      cases rs <;> cases busy <;> cases cb <;> cases lcb <;> cases secret <;>
        simp [preRunEvents, runEvents, errorEvents, tailEvents, tailCallback,
          outcomeOutput, hrc, hmark, List.mem_map] at hmem

/-- Witness for `auth_failure_classification`: both marker cases at concrete
inputs. -/
theorem auth_failure_classification_witness :
    ((Request.requires_sudo
        { command := ["pacman", "-Syu"], callback := false, log_callback := false,
          source := none, cache_key := none, force_refresh := false,
          requires_sudo := true, set_global_busy := true }
        && pyFalsyOpt (some "hunter2")) = false) ∧
    ((1 : Int) ≠ 0) ∧
    (classify (ProcOutcome.ran ["sudo: 1 incorrect password attempt\n"] 1)
        = Classification.AuthFailure ∧
      Event.alert "Authentication Failed" "The password you entered was incorrect."
        ∈ (execute
            { command := ["pacman", "-Syu"], callback := false, log_callback := false,
              source := none, cache_key := none, force_refresh := false,
              requires_sudo := true, set_global_busy := true }
            (some "hunter2")
            (fun _ => ProcOutcome.ran ["sudo: 1 incorrect password attempt\n"] 1)
            (fun _ => none)).events) := by
  refine ⟨by decide, by decide, ?_⟩
  have h := auth_failure_classification
    { command := ["pacman", "-Syu"], callback := false, log_callback := false,
      source := none, cache_key := none, force_refresh := false,
      requires_sudo := true, set_global_busy := true }
    (some "hunter2")
    (fun _ => ProcOutcome.ran ["sudo: 1 incorrect password attempt\n"] 1)
    (fun _ => none) ["sudo: 1 incorrect password attempt\n"] 1
    (by decide) (by decide) rfl (by decide)
  exact h.1 (by decide)

/-- C9: the broker's secret reaches only the spawned process's input stream,
followed by a newline.  Two runs that differ only in the (non-empty) secret
have identical traces once input-stream writes are erased — so the secret
never reaches the transcript, the log/status callbacks, or the completion
callback — and identical final cache states, so it is never persisted. -/
theorem secret_noninterference (req : Request) (proc : List String → ProcOutcome)
    (cache : Cache) (p1 p2 : String)
    (h1 : p1.isEmpty = false) (h2 : p2.isEmpty = false) :
    ((execute req (some p1) proc cache).events.filter notStdin
      = (execute req (some p2) proc cache).events.filter notStdin) ∧
    ((execute req (some p1) proc cache).cache
      = (execute req (some p2) proc cache).cache) ∧
    ((execute req (some p1) proc cache).callbackValue
      = (execute req (some p2) proc cache).callbackValue) ∧
    (∀ s ∈ (execute req (some p1) proc cache).events.filterMap stdinPayload,
      s = p1 ++ "\n") := by
  have hc1 : (req.requires_sudo && pyFalsyOpt (some p1)) = false := by
    simp [pyFalsyOpt, h1]
  have hc2 : (req.requires_sudo && pyFalsyOpt (some p2)) = false := by
    simp [pyFalsyOpt, h2]
  refine ⟨?_, ?_, ?_, stdinPayload_execute req p1 proc cache⟩ <;>
  · cases hl : cacheLookup cache (req.cache_key.map (joinPath CACHE_DIR))
        req.force_refresh with
    | some s =>
        rw [execute_hit req (some p1) proc cache s hc1 hl,
          execute_hit req (some p2) proc cache s hc2 hl]
    | none =>
        rw [execute_run req (some p1) proc cache hc1 hl,
          execute_run req (some p2) proc cache hc2 hl]
        try
          simp only [List.filter_append]
          rw [filter_notStdin_runEvents req (effCommand req)
            (if req.requires_sudo then some p1 else none)
            (if req.requires_sudo then some p2 else none) (proc (effCommand req))]

/-- Witness for `secret_noninterference`: two concrete elevated runs that
differ only in the password. -/
theorem secret_noninterference_witness :
    ("swordfish".isEmpty = false) ∧ ("hunter2".isEmpty = false) ∧
    (((execute
        { command := ["pacman", "-Syu"], callback := true, log_callback := true,
          source := none, cache_key := some "sync.cache", force_refresh := true,
          requires_sudo := true, set_global_busy := true }
        (some "swordfish") (fun _ => ProcOutcome.ran ["upgrading...\n"] 0)
        (fun _ => none)).events.filter notStdin
      = ((execute
        { command := ["pacman", "-Syu"], callback := true, log_callback := true,
          source := none, cache_key := some "sync.cache", force_refresh := true,
          requires_sudo := true, set_global_busy := true }
        (some "hunter2") (fun _ => ProcOutcome.ran ["upgrading...\n"] 0)
        (fun _ => none)).events.filter notStdin)) ∧
     ((execute
        { command := ["pacman", "-Syu"], callback := true, log_callback := true,
          source := none, cache_key := some "sync.cache", force_refresh := true,
          requires_sudo := true, set_global_busy := true }
        (some "swordfish") (fun _ => ProcOutcome.ran ["upgrading...\n"] 0)
        (fun _ => none)).cache
      = (execute
        { command := ["pacman", "-Syu"], callback := true, log_callback := true,
          source := none, cache_key := some "sync.cache", force_refresh := true,
          requires_sudo := true, set_global_busy := true }
        (some "hunter2") (fun _ => ProcOutcome.ran ["upgrading...\n"] 0)
        (fun _ => none)).cache) ∧
     ((execute
        { command := ["pacman", "-Syu"], callback := true, log_callback := true,
          source := none, cache_key := some "sync.cache", force_refresh := true,
          requires_sudo := true, set_global_busy := true }
        (some "swordfish") (fun _ => ProcOutcome.ran ["upgrading...\n"] 0)
        (fun _ => none)).callbackValue
      = (execute
        { command := ["pacman", "-Syu"], callback := true, log_callback := true,
          source := none, cache_key := some "sync.cache", force_refresh := true,
          requires_sudo := true, set_global_busy := true }
        (some "hunter2") (fun _ => ProcOutcome.ran ["upgrading...\n"] 0)
        (fun _ => none)).callbackValue) ∧
     (∀ s ∈ (execute
        { command := ["pacman", "-Syu"], callback := true, log_callback := true,
          source := none, cache_key := some "sync.cache", force_refresh := true,
          requires_sudo := true, set_global_busy := true }
        (some "swordfish") (fun _ => ProcOutcome.ran ["upgrading...\n"] 0)
        (fun _ => none)).events.filterMap stdinPayload, s = "swordfish" ++ "\n")) :=
  ⟨rfl, rfl,
   secret_noninterference
    { command := ["pacman", "-Syu"], callback := true, log_callback := true,
      source := none, cache_key := some "sync.cache", force_refresh := true,
      requires_sudo := true, set_global_busy := true }
    (fun _ => ProcOutcome.ran ["upgrading...\n"] 0) (fun _ => none)
    "swordfish" "hunter2" rfl rfl⟩

/-- C1 counterexample: when the spawn raises `FileNotFoundError`, `output_str`
is still `None` at line 205, so the guard `if callback and output_str is not
None` skips the completion callback — the claim's "no failure mode leaves the
callback uninvoked" is false. -/
theorem notfound_skips_callback_cex :
    ((execute
        { command := ["yay", "-S", "--noconfirm", "vim"], callback := true,
          log_callback := true, source := some "queue", cache_key := none,
          force_refresh := true, requires_sudo := false, set_global_busy := false }
        none (fun _ => ProcOutcome.notFound) (fun _ => none)).callbackValue = none) ∧
    ((execute
        { command := ["yay", "-S", "--noconfirm", "vim"], callback := true,
          log_callback := true, source := some "queue", cache_key := none,
          force_refresh := true, requires_sudo := false, set_global_busy := false }
        none (fun _ => ProcOutcome.notFound)
        (fun _ => none)).events.filterMap completePayload = []) := by
  constructor
  · decide
  · decide

/-- C1 amended: with a callback supplied, the completion callback is invoked
with the transcript and source tag on elevation cancellation (empty
transcript), on cache hits (cached transcript), and on every completed
process run regardless of exit code (captured transcript) — but when the
spawn raises `FileNotFoundError` or an unexpected spawn/I-O error occurs, no
transcript exists and the callback is not invoked. -/
theorem callback_invocation_characterization (req : Request)
    (secret : Option String) (proc : List String → ProcOutcome) (cache : Cache)
    (hcb : req.callback = true) :
    (execute req secret proc cache).callbackValue =
      (if req.requires_sudo && pyFalsyOpt secret then some ("", req.source)
       else
         match cacheLookup cache (req.cache_key.map (joinPath CACHE_DIR))
             req.force_refresh with
         | some s => some (s, req.source)
         | none => (outcomeOutput (proc (effCommand req))).map
             (fun o => (o, req.source))) := by
  rcases Bool.eq_false_or_eq_true (req.requires_sudo && pyFalsyOpt secret) with hb | hb
  · rw [execute_cancel req secret proc cache hb]
    simp [hb, hcb]
  · cases hl : cacheLookup cache (req.cache_key.map (joinPath CACHE_DIR))
        req.force_refresh with
    | some s =>
        rw [execute_hit req secret proc cache s hb hl]
        simp [hb, hl, tailCallback, hcb]
    | none =>
        rw [execute_run req secret proc cache hb hl]
        simp [hb, hl, tailCallback, hcb]

/-- Witness for `callback_invocation_characterization` at a concrete request
whose process completes with a non-zero exit code. -/
theorem callback_invocation_characterization_witness :
    (Request.callback
      { command := ["pacman", "-Rns", "--noconfirm", "vim"], callback := true,
        log_callback := true, source := some "queue", cache_key := none,
        force_refresh := true, requires_sudo := false, set_global_busy := false }
      = true) ∧
    (execute
        { command := ["pacman", "-Rns", "--noconfirm", "vim"], callback := true,
          log_callback := true, source := some "queue", cache_key := none,
          force_refresh := true, requires_sudo := false, set_global_busy := false }
        none (fun _ => ProcOutcome.ran ["error: target not found: vim\n"] 1)
        (fun _ => none)).callbackValue =
      (if Request.requires_sudo
          { command := ["pacman", "-Rns", "--noconfirm", "vim"], callback := true,
            log_callback := true, source := some "queue", cache_key := none,
            force_refresh := true, requires_sudo := false, set_global_busy := false }
          && pyFalsyOpt none then some ("", some "queue")
       else
         match cacheLookup (fun _ => none) ((none : Option String).map
             (joinPath CACHE_DIR)) true with
         | some s => some (s, some "queue")
         | none => (outcomeOutput
             (ProcOutcome.ran ["error: target not found: vim\n"] 1)).map
             (fun o => (o, some "queue"))) := by
  refine ⟨rfl, ?_⟩
  have h := callback_invocation_characterization
    { command := ["pacman", "-Rns", "--noconfirm", "vim"], callback := true,
      log_callback := true, source := some "queue", cache_key := none,
      force_refresh := true, requires_sudo := false, set_global_busy := false }
    none (fun _ => ProcOutcome.ran ["error: target not found: vim\n"] 1)
    (fun _ => none) rfl
  simpa using h

/-- A completed spawn yields a transcript. -/
theorem outcomeOutput_isSome (o : ProcOutcome) (h : o.isRan = true) :
    (outcomeOutput o).isSome = true := by
  cases o <;> simp [ProcOutcome.isRan, outcomeOutput] at *

/-- The post-wait inspection events never refresh the UI state. -/
theorem refresh_not_mem_errorEvents (rc : Int) (out : String) :
    Event.refresh ∉ errorEvents rc out := by
  unfold errorEvents
  split
  · split <;> simp
  · simp

/-- One queued job's worker is exactly the run branch: no elevation
cancellation (the secret is non-falsy), no cache involvement. -/
theorem runJob_eq (s : Option String) (proc : List String → ProcOutcome)
    (cache : Cache) (j : Job) (hs : pyFalsyOpt s = false) :
    runJob s proc cache j =
      { events := preRunEvents (effCommand (jobRequest j))
          ++ runEvents (jobRequest j) (effCommand (jobRequest j))
              (if j.requires_sudo then s else none)
              (proc (effCommand (jobRequest j)))
          ++ [Event.status "Ready"]
          ++ tailEvents (jobRequest j)
              (outcomeOutput (proc (effCommand (jobRequest j))))
        cache := cache
        callbackValue := tailCallback (jobRequest j)
          (outcomeOutput (proc (effCommand (jobRequest j)))) } := by
  have hnc : ((jobRequest j).requires_sudo && pyFalsyOpt s) = false := by
    simp [jobRequest, hs]
  have hmiss : cacheLookup cache ((jobRequest j).cache_key.map (joinPath CACHE_DIR))
      (jobRequest j).force_refresh = none := rfl
  rw [runJob, execute_run (jobRequest j) s proc cache hnc hmiss]
  rfl

/-- One queued job spawns exactly once, with its effective argument vector. -/
theorem runJob_spawns (s : Option String) (proc : List String → ProcOutcome)
    (cache : Cache) (j : Job) (hs : pyFalsyOpt s = false) :
    (runJob s proc cache j).events.filterMap spawnPayload
      = [effCommand (jobRequest j)] := by
  rw [runJob_eq s proc cache j hs]
  have h := spawnPayload_run (jobRequest j) false (effCommand (jobRequest j))
    (if j.requires_sudo then s else none) (proc (effCommand (jobRequest j)))
  simpa using h

/-- When the spawn succeeds (whatever the exit code), the queued job's
completion callback fires, so the chain continues. -/
theorem runJob_callback_fires (s : Option String) (proc : List String → ProcOutcome)
    (cache : Cache) (j : Job) (hs : pyFalsyOpt s = false)
    (hran : (proc (effCommand (jobRequest j))).isRan = true) :
    (runJob s proc cache j).callbackValue.isSome = true := by
  rw [runJob_eq s proc cache j hs]
  simp only [tailCallback, jobRequest, if_true, Option.isSome_map]
  simpa [tailCallback] using outcomeOutput_isSome _ hran

/-- A queued job's worker never refreshes the UI state itself. -/
theorem refresh_not_mem_runJob (s : Option String) (proc : List String → ProcOutcome)
    (cache : Cache) (j : Job) (hs : pyFalsyOpt s = false) :
    Event.refresh ∉ (runJob s proc cache j).events := by
  rw [runJob_eq s proc cache j hs]
  cases ho : proc (effCommand (jobRequest j)) <;>
    cases hr : (if j.requires_sudo then s else none) <;>
      simp [preRunEvents, runEvents, tailEvents, tailCallback, outcomeOutput,
        jobRequest, List.mem_append, List.mem_map, refresh_not_mem_errorEvents]

/-- Chainer induction: with every spawn succeeding and every prompt answered,
every job spawns in order, the done block terminates the trace, and exactly
one refresh is emitted. -/
theorem process_queue_aux (jobs : List Job) (proc : List String → ProcOutcome)
    (hproc : ∀ c, (proc c).isRan = true) :
    ∀ (secrets : Nat → Option String), (∀ n, pyFalsyOpt (secrets n) = false) →
    ∀ (cache : Cache),
    ((process_queue secrets proc cache jobs).filterMap spawnPayload
      = jobs.map (fun j => effCommand (jobRequest j))) ∧
    (∃ t, process_queue secrets proc cache jobs = t ++ queueDoneEvents) ∧
    ((process_queue secrets proc cache jobs).count Event.refresh = 1) := by
  induction jobs with
  | nil =>
      intro secrets hsec cache
      refine ⟨rfl, ⟨[], rfl⟩, ?_⟩
      show List.count Event.refresh queueDoneEvents = 1
      decide
  | cons j rest ih =>
      intro secrets hsec cache
      have hcb : (runJob (secrets 0) proc cache j).callbackValue.isSome = true :=
        runJob_callback_fires (secrets 0) proc cache j (hsec 0) (hproc _)
      have ihx := ih (fun n => secrets (n + 1)) (fun n => hsec (n + 1))
        ((runJob (secrets 0) proc cache j).cache)
      refine ⟨?_, ?_, ?_⟩
      · simp only [process_queue, hcb, if_true, List.filterMap_append,
          List.map_cons]
        rw [runJob_spawns (secrets 0) proc cache j (hsec 0), ihx.1]
        rfl
      · obtain ⟨t, ht⟩ := ihx.2.1
        refine ⟨(runJob (secrets 0) proc cache j).events ++ t, ?_⟩
        simp only [process_queue, hcb, if_true]
        rw [ht, List.append_assoc]
      · simp only [process_queue, hcb, if_true, List.count_append]
        rw [List.count_eq_zero.mpr
          (refresh_not_mem_runJob (secrets 0) proc cache j (hsec 0)), ihx.2.2]

/-- C3: for a queue grouped by `buildJobs` into the ordered job sequence
[system installs, system removes, flatpak installs, flatpak removes], when
every spawn succeeds (any exit code, zero or not) and every elevation prompt
is answered, the chainer spawns every job in order — a job finishing with a
non-zero exit never aborts the rest — and on exhaustion the trace ends with
the "All operations complete." dialog line, the console line, and exactly one
state refresh. -/
theorem process_queue_runs_all_jobs (q : List QueueItem)
    (secrets : Nat → Option String) (proc : List String → ProcOutcome)
    (cache : Cache)
    (hproc : ∀ c, (proc c).isRan = true)
    (hsec : ∀ n, pyFalsyOpt (secrets n) = false) :
    ((process_queue secrets proc cache (buildJobs q)).filterMap spawnPayload
      = (buildJobs q).map (fun j => effCommand (jobRequest j))) ∧
    (∃ t, process_queue secrets proc cache (buildJobs q) = t ++ queueDoneEvents) ∧
    ((process_queue secrets proc cache (buildJobs q)).count Event.refresh = 1) :=
  process_queue_aux (buildJobs q) proc hproc secrets hsec cache

/-- Witness for `process_queue_runs_all_jobs`: the spec's scenario — job A
(system install, exits 1) then job B (flatpak uninstall, exits 0); both run,
in order, and the done block still closes the trace. -/
theorem process_queue_runs_all_jobs_witness :
    ((process_queue (fun _ => some "pw")
        (fun c => ProcOutcome.ran
          (if c.headD "" = "sudo" then ["error: target not found: vim\n"]
           else ["Uninstalling org.gimp.GIMP\n"])
          (if c.headD "" = "sudo" then 1 else 0))
        (fun _ => none)
        (buildJobs [{ action := "install", pkg_name := "vim", source := "pacman" },
          { action := "remove", pkg_name := "org.gimp.GIMP", source := "flatpak" }])).filterMap
          spawnPayload
      = (buildJobs [{ action := "install", pkg_name := "vim", source := "pacman" },
          { action := "remove", pkg_name := "org.gimp.GIMP", source := "flatpak" }]).map
          (fun j => effCommand (jobRequest j))) ∧
    (∃ t, process_queue (fun _ => some "pw")
        (fun c => ProcOutcome.ran
          (if c.headD "" = "sudo" then ["error: target not found: vim\n"]
           else ["Uninstalling org.gimp.GIMP\n"])
          (if c.headD "" = "sudo" then 1 else 0))
        (fun _ => none)
        (buildJobs [{ action := "install", pkg_name := "vim", source := "pacman" },
          { action := "remove", pkg_name := "org.gimp.GIMP", source := "flatpak" }])
      = t ++ queueDoneEvents) ∧
    ((process_queue (fun _ => some "pw")
        (fun c => ProcOutcome.ran
          (if c.headD "" = "sudo" then ["error: target not found: vim\n"]
           else ["Uninstalling org.gimp.GIMP\n"])
          (if c.headD "" = "sudo" then 1 else 0))
        (fun _ => none)
        (buildJobs [{ action := "install", pkg_name := "vim", source := "pacman" },
          { action := "remove", pkg_name := "org.gimp.GIMP", source := "flatpak" }])).count
          Event.refresh = 1) :=
  process_queue_runs_all_jobs
    [{ action := "install", pkg_name := "vim", source := "pacman" },
     { action := "remove", pkg_name := "org.gimp.GIMP", source := "flatpak" }]
    (fun _ => some "pw")
    (fun c => ProcOutcome.ran
      (if c.headD "" = "sudo" then ["error: target not found: vim\n"]
       else ["Uninstalling org.gimp.GIMP\n"])
      (if c.headD "" = "sudo" then 1 else 0))
    (fun _ => none)
    (fun _ => rfl)
    (fun _ => rfl)

end ALPM
